import Mathlib

/-!
# Verification of the realm-object-store collection-handle layer

Shallow embedding of the collection-handle layer of `realm-object-store`:

* `src/list.cpp` (`List`, link-mode collections over a `LinkView`),
* `src/primitive_list.cpp` / `.hpp` (`PrimitiveList<T>`, scalar collections
  backed by a single-column table),
* `src/primitive_results.cpp` / `.hpp` (`PrimitiveResults<T>`, the lazily
  materialized view engine).

Modelling conventions:

* C++ exceptions become `Except Err` results; the `Err` constructors mirror the
  exception taxonomy (`InvalidatedException`, `InvalidTransactionException`,
  `OutOfBoundsIndexException{requested, valid_count}`, the aggregate
  `throw "unsupported"`, and `std.logic_error`).
* A column cell is `Option α`: `none` is a stored null.  A handle records in
  `opt` whether its static element type `T` is `util.Optional<U>` (the
  `is_dereferencable` dispatch in the source).
* Undefined behaviour of the underlying storage engine (dereferencing a null
  `TableRef`/`LinkViewRef`, reading a detached table, out-of-range raw reads)
  is modelled as the distinct error `Err.engineFault`; it is never one of the
  layer's own errors.
* The model is single-threaded: `Realm.verify_thread` always succeeds and is
  therefore omitted; `Realm` keeps only the `is_in_transaction` flag.
* Floating-point columns: the claims touched here only concern empty
  collections, where every numeric domain behaves like `Int` (sum 0, count 0),
  so `Int` stands in for `int64_t`, `float` and `double`; the per-type
  *dispatch* (which template specializations exist) is modelled exactly.
-/

deriving instance DecidableEq for Except

/-- Error taxonomy of the layer (spec section 7 / `list.hpp` exceptions), plus
`engineFault` for storage-engine undefined behaviour (never thrown by the
layer itself). -/
inductive Err where
  | invalidated
  | invalidTransaction
  | outOfBounds (requested : Nat) (valid_count : Nat)
  | unsupported
  | engineFault
deriving DecidableEq

/-- The non-owning `Realm` session reference: only the write-transaction flag
(`Realm::is_in_transaction`) is relevant to this layer's checks. -/
structure Realm where
  in_transaction : Bool
deriving DecidableEq

/-- A storage-engine table restricted to its single value column (the backing
store of a `PrimitiveList`): an object identity (`ptr`, the address the
`TableRef` points to), an attachment flag, and the column cells, where `none`
is a stored null. -/
structure Table (α : Type) where
  ptr : Nat
  attached : Bool
  cells : List (Option α)
deriving DecidableEq

/-- `realm::not_found` / `npos`, the not-found sentinel returned by searches
(a `size_t` with all bits set). -/
def not_found : Nat := 2 ^ 64 - 1

/-- `List::verify_valid_row` / `PrimitiveList::verify_valid_row` (identical in
both files): throws `OutOfBoundsIndexException{row_ndx, size + insertion}` when
`row_ndx > size || (!insertion && row_ndx == size)`.  Modelled as a function of
the table whose `size()` the source reads. -/
def Table.verify_valid_row {α : Type} (t : Table α) (row_ndx : Nat) (insertion : Bool) :
    Except Err Unit :=
  if row_ndx > t.cells.length ∨ (insertion = false ∧ row_ndx = t.cells.length) then
    .error (.outOfBounds row_ndx (t.cells.length + (if insertion then 1 else 0)))
  else .ok ()

/-- The two `::get` helper overloads of `primitive_list.cpp`: for optional `T`,
`is_null` then `table.get`; for non-optional `T`, `table.get` directly (a null
cell is impossible by schema for a non-optional column; the engine's stored
value is modelled by `getD default`).  A read of a detached table or of an
out-of-range row is storage-engine undefined behaviour (`engineFault`). -/
def Table.readCell {α : Type} [Inhabited α] (opt : Bool) (t : Table α) (i : Nat) :
    Except Err (Option α) :=
  if t.attached = false ∨ t.cells.length ≤ i then .error .engineFault
  else .ok (if opt then t.cells.getD i none else some ((t.cells.getD i none).getD default))

/-- Storage-engine `Table::find_first_null(0)`: index of the first null cell,
else `not_found`. -/
def Table.find_first_null {α : Type} (t : Table α) : Nat :=
  (t.cells.findIdx? (fun c => c.isNone)).getD not_found

/-- Storage-engine `Table::find_first(0, value)`: index of the first cell that
stores exactly `value` (a null cell stores no value and never matches), else
`not_found`. -/
def Table.find_first {α : Type} [DecidableEq α] (t : Table α) (x : α) : Nat :=
  (t.cells.findIdx? (fun c => decide (c = some x))).getD not_found

/-- Modelled from the spec: the storage-engine link-list `move` contract
(section 6) — relocate the element at position `f` to position `d`. -/
def moveElem {β : Type} (xs : List β) (f d : Nat) : List β :=
  match xs[f]? with
  | none => xs
  | some x => (xs.eraseIdx f).insertIdx d x

/-- Modelled from the spec: the storage-engine `swap_rows` / link-list `swap`
contract (section 6) — exchange the elements at positions `i` and `j`. -/
def swapElems {β : Type} (xs : List β) (i j : Nat) : List β :=
  match xs[i]?, xs[j]? with
  | some a, some b => (xs.set i b).set j a
  | _, _ => xs

/-- `std::hash<void*>` modelled as the identity on pointer values (injective,
as in libstdc++). -/
def stdHashPtr (p : Nat) : Nat := p

/-- `PrimitiveList<T>` (`primitive_list.hpp`): a Realm reference, the static
optionality of `T`, and `m_table` (`none` models the null `TableRef` of a
default-constructed handle). -/
structure PrimitiveList (α : Type) where
  realm : Realm
  opt : Bool
  table : Option (Table α)
deriving DecidableEq

/-- `PrimitiveList::is_valid`: `m_table && m_table->is_attached()` (the
`verify_thread` call always succeeds in this single-threaded model). -/
def PrimitiveList.is_valid {α : Type} (l : PrimitiveList α) : Bool :=
  match l.table with
  | none => false
  | some t => t.attached

/-- `PrimitiveList::verify_attached` fused with the subsequent `*m_table`
dereference every checked operation performs: `InvalidatedException` unless the
table exists and is attached. -/
def PrimitiveList.checkedTable {α : Type} (l : PrimitiveList α) : Except Err (Table α) :=
  match l.table with
  | none => .error .invalidated
  | some t => if t.attached then .ok t else .error .invalidated

/-- `PrimitiveList::verify_in_transaction`: `verify_attached()` then
`InvalidTransactionException` unless the realm is in a write transaction. -/
def PrimitiveList.checkedTxTable {α : Type} (l : PrimitiveList α) : Except Err (Table α) := do
  let t ← l.checkedTable
  if l.realm.in_transaction then .ok t else .error .invalidTransaction

/-- `PrimitiveList::size`: `verify_attached(); return m_table->size();`. -/
def PrimitiveList.size {α : Type} (l : PrimitiveList α) : Except Err Nat := do
  let t ← l.checkedTable
  .ok t.cells.length

/-- `PrimitiveList::get`: `verify_attached(); verify_valid_row(row_ndx);
return ::get<T>(*m_table, row_ndx);`. -/
def PrimitiveList.get {α : Type} [Inhabited α] (l : PrimitiveList α) (i : Nat) :
    Except Err (Option α) := do
  let t ← l.checkedTable
  let _ ← t.verify_valid_row i false
  Table.readCell l.opt t i

/-- `PrimitiveList::get_unchecked` (`noexcept`): `return ::get<T>(*m_table,
row_ndx);` with no attachment, thread or bounds check of its own. -/
def PrimitiveList.get_unchecked {α : Type} [Inhabited α] (l : PrimitiveList α) (i : Nat) :
    Except Err (Option α) :=
  match l.table with
  | none => .error .engineFault
  | some t => Table.readCell l.opt t i

/-- `PrimitiveList::find`: `verify_attached();` then `is_null(value) ?
find_first_null : find_first(unbox(value))`.  For a non-optional element type
`is_null` is constantly `false`, so the argument is always present there. -/
def PrimitiveList.find {α : Type} [DecidableEq α] (l : PrimitiveList α) (v : Option α) :
    Except Err Nat := do
  let t ← l.checkedTable
  match v with
  | none => .ok t.find_first_null
  | some x => .ok (t.find_first x)

/-- `PrimitiveList::add`: `verify_in_transaction(); m_table->set(0,
m_table->add_empty_row(), value);` — net effect: append the value. -/
def PrimitiveList.add {α : Type} (l : PrimitiveList α) (v : Option α) :
    Except Err (PrimitiveList α) := do
  let t ← l.checkedTxTable
  .ok { l with table := some { t with cells := t.cells ++ [v] } }

/-- `PrimitiveList::insert`: `verify_in_transaction();
verify_valid_row(row_ndx, true); m_table->insert_empty_row(row_ndx);
m_table->set(0, row_ndx, value);` — net effect: insert the value at the
index. -/
def PrimitiveList.insert {α : Type} (l : PrimitiveList α) (i : Nat) (v : Option α) :
    Except Err (PrimitiveList α) := do
  let t ← l.checkedTxTable
  let _ ← t.verify_valid_row i true
  .ok { l with table := some { t with cells := t.cells.insertIdx i v } }

/-- `PrimitiveList::set`: `verify_in_transaction(); verify_valid_row(row_ndx);
::set(*m_table, row_ndx, value);` — the two `::set` overloads both store the
boxed value (present value directly, absent value via `set_null`). -/
def PrimitiveList.set {α : Type} (l : PrimitiveList α) (i : Nat) (v : Option α) :
    Except Err (PrimitiveList α) := do
  let t ← l.checkedTxTable
  let _ ← t.verify_valid_row i false
  .ok { l with table := some { t with cells := t.cells.set i v } }

/-- `PrimitiveList::remove`: `verify_in_transaction(); verify_valid_row(row_ndx);
m_table->remove(row_ndx);`. -/
def PrimitiveList.remove {α : Type} (l : PrimitiveList α) (i : Nat) :
    Except Err (PrimitiveList α) := do
  let t ← l.checkedTxTable
  let _ ← t.verify_valid_row i false
  .ok { l with table := some { t with cells := t.cells.eraseIdx i } }

/-- `PrimitiveList::remove_all`: `verify_in_transaction(); m_table->clear();`. -/
def PrimitiveList.remove_all {α : Type} (l : PrimitiveList α) :
    Except Err (PrimitiveList α) := do
  let t ← l.checkedTxTable
  .ok { l with table := some { t with cells := [] } }

/-- `PrimitiveList::move`: `verify_in_transaction(); verify_valid_row(source_ndx);
verify_valid_row(dest_ndx);` — the `m_table->move(source_ndx, dest_ndx)` call
is commented out in the source, so after the checks the list is returned
unchanged. -/
def PrimitiveList.move {α : Type} (l : PrimitiveList α) (source_ndx dest_ndx : Nat) :
    Except Err (PrimitiveList α) := do
  let t ← l.checkedTxTable
  let _ ← t.verify_valid_row source_ndx false
  let _ ← t.verify_valid_row dest_ndx false
  .ok l

/-- `PrimitiveList::swap`: `verify_in_transaction(); verify_valid_row(ndx1);
verify_valid_row(ndx2); m_table->swap_rows(ndx1, ndx2);`. -/
def PrimitiveList.swap {α : Type} (l : PrimitiveList α) (i j : Nat) :
    Except Err (PrimitiveList α) := do
  let t ← l.checkedTxTable
  let _ ← t.verify_valid_row i false
  let _ ← t.verify_valid_row j false
  .ok { l with table := some { t with cells := swapElems t.cells i j } }

/-- The raw pointer value of `m_table.get()` (0 for the null `TableRef` of a
default-constructed handle; object addresses are nonzero). -/
def PrimitiveList.ptrVal {α : Type} (l : PrimitiveList α) : Nat :=
  match l.table with
  | none => 0
  | some t => t.ptr

/-- `PrimitiveList::operator==`: `m_table.get() == rgt.m_table.get()` —
identity of the backing table, never content comparison. -/
def PrimitiveList.eqOp {α : Type} (a b : PrimitiveList α) : Bool :=
  a.ptrVal == b.ptrVal

/-- `std::hash<PrimitiveList<T>>`: `std::hash<void*>()(list.m_table.get())`. -/
def PrimitiveList.hashVal {α : Type} (a : PrimitiveList α) : Nat :=
  stdHashPtr a.ptrVal

/-- A storage-engine `LinkView` (interned by core: one live object per
underlying link list): object identity, attachment flag, and the ordered
target-row indices. -/
structure LinkView where
  ptr : Nat
  attached : Bool
  links : List Nat
deriving DecidableEq

/-- `List` of `list.cpp` (link-mode collection handle); named `LinkList` here
because `List` is taken by Lean.  `m_link_view = none` models the null
`LinkViewRef` of a default-constructed handle. -/
structure LinkList where
  realm : Realm
  linkView : Option LinkView
deriving DecidableEq

/-- `List::is_valid`: `m_link_view && m_link_view->is_attached()`. -/
def LinkList.is_valid (l : LinkList) : Bool :=
  match l.linkView with
  | none => false
  | some lv => lv.attached

/-- `List::verify_attached` fused with the subsequent `m_link_view`
dereference. -/
def LinkList.checkedLV (l : LinkList) : Except Err LinkView :=
  match l.linkView with
  | none => .error .invalidated
  | some lv => if lv.attached then .ok lv else .error .invalidated

/-- `List::verify_in_transaction`. -/
def LinkList.checkedTxLV (l : LinkList) : Except Err LinkView := do
  let lv ← l.checkedLV
  if l.realm.in_transaction then .ok lv else .error .invalidTransaction

/-- `List::verify_valid_row` — same computation as the `PrimitiveList` one,
over `m_link_view->size()`. -/
def LinkView.verify_valid_row (lv : LinkView) (row_ndx : Nat) (insertion : Bool) :
    Except Err Unit :=
  if row_ndx > lv.links.length ∨ (insertion = false ∧ row_ndx = lv.links.length) then
    .error (.outOfBounds row_ndx (lv.links.length + (if insertion then 1 else 0)))
  else .ok ()

/-- Helper: rebuild a link-mode handle sharing everything but the link
sequence. -/
def LinkList.withLinks (l : LinkList) (lv : LinkView) (ls : List Nat) : LinkList :=
  { l with linkView := some { lv with links := ls } }

/-- `List::add` (link specialization): `verify_in_transaction();
m_link_view->add(target_row_ndx);`. -/
def LinkList.add (l : LinkList) (target : Nat) : Except Err LinkList := do
  let lv ← l.checkedTxLV
  .ok (l.withLinks lv (lv.links ++ [target]))

/-- `List::insert` (link specialization): `verify_in_transaction();
verify_valid_row(row_ndx, true); m_link_view->insert(row_ndx,
target_row_ndx);`. -/
def LinkList.insert (l : LinkList) (i : Nat) (target : Nat) : Except Err LinkList := do
  let lv ← l.checkedTxLV
  let _ ← lv.verify_valid_row i true
  .ok (l.withLinks lv (lv.links.insertIdx i target))

/-- `List::set` (link specialization): `verify_in_transaction();
verify_valid_row(row_ndx); m_link_view->set(row_ndx, target_row_ndx);`. -/
def LinkList.set (l : LinkList) (i : Nat) (target : Nat) : Except Err LinkList := do
  let lv ← l.checkedTxLV
  let _ ← lv.verify_valid_row i false
  .ok (l.withLinks lv (lv.links.set i target))

/-- `List::move`: `verify_in_transaction(); verify_valid_row(source_ndx);
verify_valid_row(dest_ndx); m_link_view->move(source_ndx, dest_ndx);` (the
`else throw std::logic_error` branch is unreachable for a valid handle, which
always has a link view). -/
def LinkList.move (l : LinkList) (source_ndx dest_ndx : Nat) : Except Err LinkList := do
  let lv ← l.checkedTxLV
  let _ ← lv.verify_valid_row source_ndx false
  let _ ← lv.verify_valid_row dest_ndx false
  .ok (l.withLinks lv (moveElem lv.links source_ndx dest_ndx))

/-- `List::remove`: `verify_in_transaction(); verify_valid_row(row_ndx);
m_link_view->remove(row_ndx);`. -/
def LinkList.remove (l : LinkList) (i : Nat) : Except Err LinkList := do
  let lv ← l.checkedTxLV
  let _ ← lv.verify_valid_row i false
  .ok (l.withLinks lv (lv.links.eraseIdx i))

/-- `List::remove_all`: `verify_in_transaction(); m_link_view->clear();` —
clears the links without touching target rows. -/
def LinkList.remove_all (l : LinkList) : Except Err LinkList := do
  let lv ← l.checkedTxLV
  .ok (l.withLinks lv [])

/-- `List::swap`: `verify_in_transaction(); verify_valid_row(ndx1);
verify_valid_row(ndx2); m_link_view->swap(ndx1, ndx2);`. -/
def LinkList.swap (l : LinkList) (i j : Nat) : Except Err LinkList := do
  let lv ← l.checkedTxLV
  let _ ← lv.verify_valid_row i false
  let _ ← lv.verify_valid_row j false
  .ok (l.withLinks lv (swapElems lv.links i j))

/-- `List::delete_all`: `verify_in_transaction();
m_link_view->remove_all_target_rows();` — clears the link list and destroys
the target rows (the target table itself is outside this model). -/
def LinkList.delete_all (l : LinkList) : Except Err LinkList := do
  let lv ← l.checkedTxLV
  .ok (l.withLinks lv [])

/-- `List::get_unchecked` (`noexcept`): `return
m_link_view->get(row_ndx).get_index();` with no checks of its own; a null or
detached link view or an out-of-range row is engine undefined behaviour. -/
def LinkList.get_unchecked (l : LinkList) (i : Nat) : Except Err Nat :=
  match l.linkView with
  | none => .error .engineFault
  | some lv =>
      if lv.attached = false ∨ lv.links.length ≤ i then .error .engineFault
      else .ok (lv.links.getD i 0)

/-- The raw pointer value of `m_link_view.get()`. -/
def LinkList.lvPtrVal (l : LinkList) : Nat :=
  match l.linkView with
  | none => 0
  | some lv => lv.ptr

/-- `List::operator==`: `m_link_view.get() == rgt.m_link_view.get()` —
identity of the underlying (interned) link view. -/
def LinkList.eqOp (a b : LinkList) : Bool :=
  a.lvPtrVal == b.lvPtrVal

/-- `std::hash<List>`: `std::hash<void*>()(list.m_link_view.get())`. -/
def LinkList.hashVal (a : LinkList) : Nat :=
  stdHashPtr a.lvPtrVal

/-- The `ResultsBase::Mode` of a view engine (spec section 4.3). -/
inductive Mode where
  | empty
  | table
  | query
  | tableView
deriving DecidableEq

/-- `PrimitiveResults<T>` over its `ResultsBase` state.  The `ResultsBase`
fields are modelled from the spec (`impl/results_base.hpp` is not in the
visible sources): `mode`, the backing `table`, the stored `query` (as a row
predicate), the materialized view `tv` (one entry per view row: `some j` for
an attached row pointing at table row `j`, `none` for a row detached since
materialization), and `autoUpdate` (`false` once a snapshot pinned the
view). -/
structure PrimitiveResults (α : Type) where
  realm : Realm
  opt : Bool
  mode : Mode
  table : Table α
  query : Option α → Bool
  tv : List (Option Nat)
  autoUpdate : Bool

/-- Modelled from the spec: materialization (section 4.3 / glossary) — the
ordered set of table rows currently satisfying the query, all attached. -/
def materialize {α : Type} (t : Table α) (q : Option α → Bool) : List (Option Nat) :=
  ((List.range t.cells.length).filter (fun i => q (t.cells.getD i none))).map some

/-- Modelled from the spec: `ResultsBase::update_tableview` — re-materializes
when auto-updating; a snapshot (`autoUpdate = false`) is pinned at call time
and never re-materializes (section 4.3). -/
def PrimitiveResults.update_tableview {α : Type} (r : PrimitiveResults α) :
    PrimitiveResults α :=
  if r.autoUpdate then { r with tv := materialize r.table r.query } else r

/-- Modelled from the spec: `ResultsBase::validate_read` — every read
re-validates that the backing storage still exists (sections 4.2, 7); the
thread check always succeeds in this single-threaded model. -/
def PrimitiveResults.validate_read {α : Type} (r : PrimitiveResults α) : Except Err Unit :=
  if r.mode = .empty then .ok ()
  else if r.table.attached then .ok () else .error .invalidated

/-- Modelled from the spec: the size visible to `size()` (section 4.3): table
row count in `Table` mode, materialized count in `Query`/`TableView` mode. -/
def PrimitiveResults.sizeVal {α : Type} (r : PrimitiveResults α) : Nat :=
  match r.mode with
  | .empty => 0
  | .table => r.table.cells.length
  | .query => r.update_tableview.tv.length
  | .tableView => r.update_tableview.tv.length

/-- Modelled from the spec: `size()` — re-validate, then report the current
count (section 4.3). -/
def PrimitiveResults.size {α : Type} (r : PrimitiveResults α) : Except Err Nat := do
  let _ ← r.validate_read
  .ok r.sizeVal

/-- `TableView::is_row_attached(i)` on the materialized view. -/
def isRowAttached (tv : List (Option Nat)) (i : Nat) : Bool :=
  (tv.getD i none).isSome

/-- The value-initialized `T{}` returned by `PrimitiveResults::get` for a
detached snapshot row: `none` for an optional element type, the
value-initialized scalar otherwise. -/
def emptyValue {α : Type} [Inhabited α] (opt : Bool) : Option α :=
  if opt then none else some default

/-- The shared `Mode::Query` / `Mode::TableView` branch of
`PrimitiveResults::get` (primitive_results.cpp lines 108-115):
`update_tableview(); if (row_ndx >= tableview().size()) break; if
(!auto_update() && !tableview().is_row_attached(row_ndx)) return {}; return
::get<T>(*table(), tableview().get(row_ndx).get_index());`. -/
def PrimitiveResults.getFromView {α : Type} [Inhabited α] (r : PrimitiveResults α)
    (i : Nat) : Except Err (Option α) :=
  let r2 := r.update_tableview
  if r2.tv.length ≤ i then .error (.outOfBounds i r2.sizeVal)
  else if r2.autoUpdate = false ∧ isRowAttached r2.tv i = false then .ok (emptyValue r2.opt)
  else
    match r2.tv.getD i none with
    | some j => Table.readCell r2.opt r2.table j
    | none => .error .engineFault

/-- `PrimitiveResults::get` (primitive_results.cpp lines 98-120):
`validate_read()`, then per-mode access; reaching the end of the switch throws
`OutOfBoundsIndexException{row_ndx, size()}`. -/
def PrimitiveResults.get {α : Type} [Inhabited α] (r : PrimitiveResults α) (i : Nat) :
    Except Err (Option α) := do
  let _ ← r.validate_read
  match r.mode with
  | .empty => .error (.outOfBounds i r.sizeVal)
  | .table =>
      if i < r.table.cells.length then Table.readCell r.opt r.table i
      else .error (.outOfBounds i r.sizeVal)
  | .query => r.getFromView i
  | .tableView => r.getFromView i

/-- Modelled from the spec: the storage engine removing row `k` from the
backing table while a pinned (snapshot) view exists — view entries pointing at
the removed row become detached, higher row numbers shift down, the view keeps
its materialized length (sections 4.3, 8). -/
def detachTv (tv : List (Option Nat)) (k : Nat) : List (Option Nat) :=
  tv.map (fun e =>
    match e with
    | none => none
    | some j => if j = k then none else if k < j then some (j - 1) else some j)

/-- Modelled from the spec: remove row `k` from the table backing a view
engine, updating the pinned view as the engine's view maintenance does. -/
def PrimitiveResults.removeRow {α : Type} (r : PrimitiveResults α) (k : Nat) :
    PrimitiveResults α :=
  { r with table := { r.table with cells := r.table.cells.eraseIdx k },
           tv := detachTv r.tv k }

/-- The non-optional numeric element kinds dispatched by the aggregate
template specializations. -/
inductive NumElem where
  | i64
  | f32
  | f64
deriving DecidableEq

/-- The static element type `T` of a `PrimitiveResults<T>` aggregate call:
a numeric kind, optionally wrapped in `util.Optional`. -/
structure AggElemTy where
  base : NumElem
  opt : Bool
deriving DecidableEq

/-- Whether the aggregate runs against a `Table` or a `TableView` (the two
overload families of the specializations). -/
inductive TblKind where
  | table
  | tableView
deriving DecidableEq

/-- Exactly the `REALM_SUM_FUNCTION` instantiations of primitive_results.cpp
lines 267-270: `(Table, int64_t)`, `(TableView, int64_t)`, `(Table, float)`,
`(TableView, double)`.  Every other combination falls back to the generic
template, which throws `"unsupported"`. -/
def sumSpecialized : AggElemTy → TblKind → Bool
  | ⟨.i64, false⟩, _ => true
  | ⟨.f32, false⟩, .table => true
  | ⟨.f64, false⟩, .tableView => true
  | _, _ => false

/-- Exactly the `REALM_AVERAGE_FUNCTION` instantiations of
primitive_results.cpp lines 283-286: same four combinations as `sum`. -/
def avgSpecialized : AggElemTy → TblKind → Bool
  | ⟨.i64, false⟩, _ => true
  | ⟨.f32, false⟩, .table => true
  | ⟨.f64, false⟩, .tableView => true
  | _, _ => false

/-- The `REALM_MINMAX_FUNCTION` instantiations cover all non-optional element
types for both `Table` and `TableView`; optional types fall back to the
generic `throw "unsupported"`. -/
def minmaxSpecialized : AggElemTy → TblKind → Bool :=
  fun ty _ => !ty.opt

/-- Storage-engine `sum_int/sum_float/sum_double(0)`: sum of the column with
nulls contributing zero (0 on an empty column). -/
def cellsSumInt (cells : List (Option Int)) : Int :=
  (cells.map (fun c => c.getD 0)).sum

/-- The non-null row count reported by the engine's `average_*` out
parameter. -/
def nonNilCount (cells : List (Option Int)) : Nat :=
  (cells.filterMap id).length

/-- The cells a `TableView` aggregate ranges over: the attached view rows,
resolved against the parent table. -/
def tvCells (t : Table Int) (tv : List (Option Nat)) : List (Option Int) :=
  (tv.filterMap id).filterMap (fun j => t.cells[j]?)

/-- The `::sum<T, T>` dispatch: a missing specialization throws
`"unsupported"` before touching the table; an existing one runs the engine sum
(whose result converts to a present `util.Optional`). -/
def sumDispatch (ty : AggElemTy) (k : TblKind) (attached : Bool)
    (cells : List (Option Int)) : Except Err (Option Int) :=
  if sumSpecialized ty k then
    if attached = false then .error .engineFault else .ok (some (cellsSumInt cells))
  else .error .unsupported

/-- The `::average<double, T>` dispatch: a missing specialization throws
`"unsupported"`; an existing one returns `none` when zero non-null rows
contributed, else the mean (the double-precision value is modelled by integer
division; only its presence matters to the claims). -/
def avgDispatch (ty : AggElemTy) (k : TblKind) (attached : Bool)
    (cells : List (Option Int)) : Except Err (Option Int) :=
  if avgSpecialized ty k then
    if attached = false then .error .engineFault
    else .ok (if nonNilCount cells = 0 then none
              else some (cellsSumInt cells / (nonNilCount cells : Int)))
  else .error .unsupported

/-- The `::maximum` / `::minimum` dispatch: optional element types throw
`"unsupported"`; otherwise the engine returns `none` when the end index equals
`npos` (no non-null rows), else the extremum. -/
def minmaxDispatch (isMax : Bool) (ty : AggElemTy) (k : TblKind) (attached : Bool)
    (cells : List (Option Int)) : Except Err (Option Int) :=
  if minmaxSpecialized ty k then
    if attached = false then .error .engineFault
    else .ok (if isMax then (cells.filterMap id).max? else (cells.filterMap id).min?)
  else .error .unsupported

/-- `PrimitiveResults<T>::sum` (primitive_results.cpp lines 323-337): note the
absence of any `validate_read` call; `Empty` mode returns `none`, `Table` mode
sums the table, `Query`/`TableView` mode updates then sums the view.  The
static type `T` is the explicit `ty` argument. -/
def PrimitiveResults.sum (ty : AggElemTy) (r : PrimitiveResults Int) :
    Except Err (Option Int) :=
  match r.mode with
  | .empty => .ok none
  | .table => sumDispatch ty .table r.table.attached r.table.cells
  | .query =>
      sumDispatch ty .tableView r.update_tableview.table.attached
        (tvCells r.update_tableview.table r.update_tableview.tv)
  | .tableView =>
      sumDispatch ty .tableView r.update_tableview.table.attached
        (tvCells r.update_tableview.table r.update_tableview.tv)

/-- `PrimitiveResults<T>::average` (primitive_results.cpp lines 339-353):
same shape as `sum`, no `validate_read`. -/
def PrimitiveResults.average (ty : AggElemTy) (r : PrimitiveResults Int) :
    Except Err (Option Int) :=
  match r.mode with
  | .empty => .ok none
  | .table => avgDispatch ty .table r.table.attached r.table.cells
  | .query =>
      avgDispatch ty .tableView r.update_tableview.table.attached
        (tvCells r.update_tableview.table r.update_tableview.tv)
  | .tableView =>
      avgDispatch ty .tableView r.update_tableview.table.attached
        (tvCells r.update_tableview.table r.update_tableview.tv)

/-- `PrimitiveResults<T>::max` (primitive_results.cpp lines 291-305), no
`validate_read`. -/
def PrimitiveResults.maxAgg (ty : AggElemTy) (r : PrimitiveResults Int) :
    Except Err (Option Int) :=
  match r.mode with
  | .empty => .ok none
  | .table => minmaxDispatch true ty .table r.table.attached r.table.cells
  | .query =>
      minmaxDispatch true ty .tableView r.update_tableview.table.attached
        (tvCells r.update_tableview.table r.update_tableview.tv)
  | .tableView =>
      minmaxDispatch true ty .tableView r.update_tableview.table.attached
        (tvCells r.update_tableview.table r.update_tableview.tv)

/-- `PrimitiveResults<T>::min` (primitive_results.cpp lines 307-321), no
`validate_read`. -/
def PrimitiveResults.minAgg (ty : AggElemTy) (r : PrimitiveResults Int) :
    Except Err (Option Int) :=
  match r.mode with
  | .empty => .ok none
  | .table => minmaxDispatch false ty .table r.table.attached r.table.cells
  | .query =>
      minmaxDispatch false ty .tableView r.update_tableview.table.attached
        (tvCells r.update_tableview.table r.update_tableview.tv)
  | .tableView =>
      minmaxDispatch false ty .tableView r.update_tableview.table.attached
        (tvCells r.update_tableview.table r.update_tableview.tv)

/-- The `PrimitiveResults(std::shared_ptr<Realm>, Table&)` constructor:
`Table` mode, live (auto-updating), no materialized view yet. -/
def resultsOfTable (re : Realm) (opt : Bool) (t : Table Int) : PrimitiveResults Int :=
  { realm := re, opt := opt, mode := .table, table := t,
    query := fun _ => true, tv := [], autoUpdate := true }

/-- `PrimitiveList<T>::sum`: `return PrimitiveResults<T>(m_realm,
*m_table).sum();` — note: no `verify_attached`, and `*m_table` dereferences a
null `TableRef` on a default-constructed handle. -/
def PrimitiveList.sumT (ty : AggElemTy) (l : PrimitiveList Int) : Except Err (Option Int) :=
  match l.table with
  | none => .error .engineFault
  | some t => PrimitiveResults.sum ty (resultsOfTable l.realm ty.opt t)

/-- `PrimitiveList<T>::average`: same shape as `sum`, no `verify_attached`. -/
def PrimitiveList.averageT (ty : AggElemTy) (l : PrimitiveList Int) :
    Except Err (Option Int) :=
  match l.table with
  | none => .error .engineFault
  | some t => PrimitiveResults.average ty (resultsOfTable l.realm ty.opt t)

/-- `PrimitiveList<T>::max`: same shape, no `verify_attached`. -/
def PrimitiveList.maxT (ty : AggElemTy) (l : PrimitiveList Int) : Except Err (Option Int) :=
  match l.table with
  | none => .error .engineFault
  | some t => PrimitiveResults.maxAgg ty (resultsOfTable l.realm ty.opt t)

/-- `PrimitiveList<T>::min`: same shape, no `verify_attached`. -/
def PrimitiveList.minT (ty : AggElemTy) (l : PrimitiveList Int) : Except Err (Option Int) :=
  match l.table with
  | none => .error .engineFault
  | some t => PrimitiveResults.minAgg ty (resultsOfTable l.realm ty.opt t)

/-- Concrete singleton list for the C1 counterexample: attached, in a write
transaction, one element. -/
def c1lstSmall : PrimitiveList Int :=
  { realm := { in_transaction := true }, opt := false,
    table := some { ptr := 1, attached := true, cells := [some 5] } }

/-- Concrete two-element list used by the C1 witness. -/
def c1tbl : Table Int := { ptr := 2, attached := true, cells := [some 1, some 2] }

/-- Handle over `c1tbl`, attached and in a write transaction. -/
def c1lst : PrimitiveList Int :=
  { realm := { in_transaction := true }, opt := false, table := some c1tbl }

theorem verify_valid_row_get_spec {α : Type} (t : Table α) (i : Nat) :
    t.verify_valid_row i false =
      if i < t.cells.length then .ok () else .error (.outOfBounds i t.cells.length) := by
  unfold Table.verify_valid_row
  by_cases h : i < t.cells.length
  · have hc : ¬(i > t.cells.length ∨ (false = false ∧ i = t.cells.length)) := by
      rintro (h1 | ⟨-, h2⟩) <;> omega
    rw [if_neg hc, if_pos h]
  · have hc : i > t.cells.length ∨ (false = false ∧ i = t.cells.length) := by
      rcases Nat.eq_or_lt_of_le (Nat.le_of_not_lt h) with h1 | h1
      · exact Or.inr ⟨rfl, h1.symm⟩
      · exact Or.inl h1
    rw [if_pos hc, if_neg h]
    norm_num

theorem verify_valid_row_insert_spec {α : Type} (t : Table α) (i : Nat) :
    t.verify_valid_row i true =
      if i ≤ t.cells.length then .ok ()
      else .error (.outOfBounds i (t.cells.length + 1)) := by
  unfold Table.verify_valid_row
  by_cases h : i ≤ t.cells.length
  · have hc : ¬(i > t.cells.length ∨ (true = false ∧ i = t.cells.length)) := by
      rintro (h1 | ⟨h2, -⟩)
      · omega
      · exact Bool.noConfusion h2
    rw [if_neg hc, if_pos h]
  · have hc : i > t.cells.length ∨ (true = false ∧ i = t.cells.length) :=
      Or.inl (Nat.lt_of_not_le h)
    rw [if_pos hc, if_neg h]
    norm_num

theorem readCell_ok {α : Type} [Inhabited α] (opt : Bool) (t : Table α) (i : Nat)
    (hAtt : t.attached = true) (hi : i < t.cells.length) :
    Table.readCell opt t i =
      .ok (if opt then t.cells.getD i none
           else some ((t.cells.getD i none).getD default)) := by
  unfold Table.readCell
  rw [if_neg]
  rintro (h | h)
  · rw [hAtt] at h
    exact Bool.noConfusion h
  · omega

/-- The C1 claim as written is false on the code: a failed `insert` reports
`valid_count = size + 1`, not `size`.  On a one-element list, `insert(2, v)`
fails with `OutOfBoundsIndex{2, 2}` where the claim requires
`OutOfBoundsIndex{2, 1}`. -/
theorem c1_insert_payload_counterexample :
    c1lstSmall.insert 2 (some 7) = .error (.outOfBounds 2 2)
    ∧ (Except.error (Err.outOfBounds 2 2) : Except Err (PrimitiveList Int))
        ≠ .error (.outOfBounds 2 1) := by
  constructor
  · decide
  · decide

/-- Claim C1 (amended): for an attached handle of size `n`, `get(i)` fails
with `OutOfBoundsIndex{i, n}` exactly when `i >= n` (in particular `get(n)`
fails with `{n, n}`); in a write transaction `insert(n, v)` succeeds and
`insert(k, v)` for `k > n` fails with `OutOfBoundsIndex{k, n + 1}` — the
`valid_count` for a failed insertion counts the legal append position. -/
theorem c1_bounds_amended {α : Type} [DecidableEq α] [Inhabited α]
    (l : PrimitiveList α) (t : Table α) (v : Option α)
    (hTab : l.table = some t) (hAtt : t.attached = true) :
    (∀ i, t.cells.length ≤ i → l.get i = .error (.outOfBounds i t.cells.length))
    ∧ (∀ i, i < t.cells.length → ∃ w, l.get i = .ok w)
    ∧ (l.realm.in_transaction = true →
        (∃ l2, l.insert t.cells.length v = .ok l2)
        ∧ (∀ k, t.cells.length < k →
            l.insert k v = .error (.outOfBounds k (t.cells.length + 1))))
    ∧ l.get t.cells.length = .error (.outOfBounds t.cells.length t.cells.length) := by
  obtain ⟨re, op, tb⟩ := l
  simp only at hTab
  subst hTab
  refine ⟨?_, ?_, ?_, ?_⟩
  · intro i hi
    simp [PrimitiveList.get, PrimitiveList.checkedTable, hAtt, verify_valid_row_get_spec,
      Bind.bind, Except.bind, if_neg (by omega : ¬ i < t.cells.length)]
  · intro i hi
    refine ⟨if op then t.cells.getD i none else some ((t.cells.getD i none).getD default), ?_⟩
    simp [PrimitiveList.get, PrimitiveList.checkedTable, hAtt, verify_valid_row_get_spec,
      Bind.bind, Except.bind, if_pos hi, readCell_ok op t i hAtt hi]
  · intro htx
    simp only at htx
    constructor
    · refine ⟨⟨re, op, some { t with cells := t.cells.insertIdx t.cells.length v }⟩, ?_⟩
      simp [PrimitiveList.insert, PrimitiveList.checkedTxTable, PrimitiveList.checkedTable,
        hAtt, htx, verify_valid_row_insert_spec, Bind.bind, Except.bind,
        if_pos (Nat.le_refl t.cells.length)]
    · intro k hk
      simp [PrimitiveList.insert, PrimitiveList.checkedTxTable, PrimitiveList.checkedTable,
        hAtt, htx, verify_valid_row_insert_spec, Bind.bind, Except.bind,
        if_neg (by omega : ¬ k ≤ t.cells.length)]
  · simp [PrimitiveList.get, PrimitiveList.checkedTable, hAtt, verify_valid_row_get_spec,
      Bind.bind, Except.bind, if_neg (by omega : ¬ t.cells.length < t.cells.length)]

/-- Witness for C1's amended theorem at the concrete two-element list. -/
theorem c1_bounds_amended_witness :
    c1lst.insert 5 (some 9) = .error (.outOfBounds 5 3)
    ∧ c1lst.get 2 = .error (.outOfBounds 2 2) :=
  ⟨((c1_bounds_amended c1lst c1tbl (some 9) rfl rfl).2.2.1 rfl).2 5 (by decide),
   (c1_bounds_amended c1lst c1tbl (some 9) rfl rfl).2.2.2⟩

theorem getD_set_self {β : Type} (xs : List β) (i : Nat) (v d : β) (h : i < xs.length) :
    (xs.set i v).getD i d = v := by
  rw [List.getD_eq_getElem?_getD, List.getElem?_set_self h]
  rfl

theorem get_of_attached {α : Type} [Inhabited α] (re : Realm) (op : Bool) (tp : Nat)
    (tc : List (Option α)) (i : Nat) (hi : i < tc.length) :
    PrimitiveList.get ⟨re, op, some ⟨tp, true, tc⟩⟩ i =
      .ok (if op then tc.getD i none else some ((tc.getD i none).getD default)) := by
  simp [PrimitiveList.get, PrimitiveList.checkedTable, verify_valid_row_get_spec,
    Bind.bind, Except.bind, if_pos hi,
    readCell_ok op ⟨tp, true, tc⟩ i rfl hi]

/-- Claim C4: on an attached handle in a write transaction, for every valid
index and every value of the element type (including the null variant of an
optional type), `set(i, v)` succeeds, `get(i)` then returns `v`, and the size
is unchanged. -/
theorem c4_set_get_roundtrip {α : Type} [DecidableEq α] [Inhabited α]
    (l : PrimitiveList α) (t : Table α) (i : Nat) (v : Option α)
    (hTab : l.table = some t) (hAtt : t.attached = true)
    (htx : l.realm.in_transaction = true) (hi : i < t.cells.length)
    (hv : l.opt = true ∨ v.isSome = true) :
    ∃ l2, l.set i v = .ok l2 ∧ l2.get i = .ok v
      ∧ l2.size = .ok t.cells.length ∧ l.size = .ok t.cells.length := by
  obtain ⟨re, op, tb⟩ := l
  obtain ⟨tp, ta, tc⟩ := t
  simp only at hTab htx hv hAtt hi
  subst hTab
  subst hAtt
  refine ⟨⟨re, op, some ⟨tp, true, tc.set i v⟩⟩, ?_, ?_, ?_, ?_⟩
  · simp [PrimitiveList.set, PrimitiveList.checkedTxTable, PrimitiveList.checkedTable,
      htx, verify_valid_row_get_spec, Bind.bind, Except.bind, if_pos hi]
  · have hi2 : i < (tc.set i v).length := by
      rw [List.length_set]; exact hi
    rw [get_of_attached re op tp (tc.set i v) i hi2]
    rcases hv with hop | hsome
    · subst hop
      simp [List.getElem?_set_self hi]
    · obtain ⟨x, rfl⟩ := Option.isSome_iff_exists.mp hsome
      cases op <;> simp [List.getElem?_set_self hi]
  · simp [PrimitiveList.size, PrimitiveList.checkedTable, Bind.bind, Except.bind,
      List.length_set]
  · simp [PrimitiveList.size, PrimitiveList.checkedTable, Bind.bind, Except.bind]

/-- Concrete table for the C4 witness. -/
def c4tbl : Table Int := { ptr := 3, attached := true, cells := [some 3, some 4] }

/-- Optional-element handle over `c4tbl`, attached and in a write
transaction. -/
def c4lst : PrimitiveList Int :=
  { realm := { in_transaction := true }, opt := true, table := some c4tbl }

/-- Witness for C4 at a concrete optional-int list, storing a null. -/
theorem c4_set_get_roundtrip_witness :
    ∃ l2, c4lst.set 1 none = .ok l2 ∧ l2.get 1 = .ok none
      ∧ l2.size = .ok 2 ∧ c4lst.size = .ok 2 :=
  c4_set_get_roundtrip c4lst c4tbl 1 none rfl rfl rfl (by decide) (Or.inl rfl)

/-- Claim C5: on an attached scalar-mode handle, `find` maps an absent search
value to a null-lookup (returning the unique null's index, or `not_found` when
no cell is null) and a present search value to an equality lookup that never
matches a null cell. -/
theorem c5_find_null_semantics {α : Type} [DecidableEq α] (l : PrimitiveList α)
    (t : Table α) (hTab : l.table = some t) (hAtt : t.attached = true) :
    (∀ k, t.cells[k]? = some none →
        (∀ j, j < t.cells.length → t.cells[j]? = some none → j = k) →
        l.find none = .ok k)
    ∧ ((∀ c ∈ t.cells, c ≠ none) → l.find none = .ok not_found)
    ∧ (∀ (x : α) (j : Nat), l.find (some x) = .ok j → j ≠ not_found →
        t.cells[j]? = some (some x)) := by
  obtain ⟨re, op, tb⟩ := l
  simp only at hTab
  subst hTab
  have hnull : PrimitiveList.find ⟨re, op, some t⟩ (none : Option α) =
      .ok t.find_first_null := by
    simp [PrimitiveList.find, PrimitiveList.checkedTable, hAtt, Bind.bind, Except.bind]
  have hpresent : ∀ x : α, PrimitiveList.find ⟨re, op, some t⟩ (some x) =
      .ok (t.find_first x) := by
    intro x
    simp [PrimitiveList.find, PrimitiveList.checkedTable, hAtt, Bind.bind, Except.bind]
  refine ⟨?_, ?_, ?_⟩
  · intro k hk huniq
    rw [hnull]
    suffices h : t.find_first_null = k by rw [h]
    unfold Table.find_first_null
    have hfi : t.cells.findIdx? (fun c => c.isNone) = some k := by
      rw [List.findIdx?_eq_some_iff_getElem]
      obtain ⟨hklt, hkeq⟩ := List.getElem?_eq_some_iff.mp hk
      refine ⟨hklt, ?_, ?_⟩
      · rw [hkeq]
        rfl
      · intro j hjk hpj
        have hjlt : j < t.cells.length := Nat.lt_trans hjk hklt
        have hjn : t.cells[j] = none := Option.isNone_iff_eq_none.mp hpj
        exact absurd (huniq j hjlt (by rw [List.getElem?_eq_getElem hjlt, hjn]))
          (Nat.ne_of_lt hjk)
    rw [hfi]
    rfl
  · intro hnonull
    rw [hnull]
    suffices h : t.find_first_null = not_found by rw [h]
    unfold Table.find_first_null
    have hfi : t.cells.findIdx? (fun c => c.isNone) = none := by
      rw [List.findIdx?_eq_none_iff]
      intro c hc
      cases c with
      | none => exact absurd rfl (hnonull none hc)
      | some y => rfl
    rw [hfi]
    rfl
  · intro x j hj hne
    rw [hpresent x] at hj
    injection hj with hjj
    subst hjj
    cases hfi : t.cells.findIdx? (fun c => decide (c = some x)) with
    | none =>
        exact absurd (by unfold Table.find_first; rw [hfi]; rfl) hne
    | some j0 =>
        have hfx : t.find_first x = j0 := by
          unfold Table.find_first
          rw [hfi]
          rfl
        obtain ⟨hlt, hp, -⟩ := List.findIdx?_eq_some_iff_getElem.mp hfi
        have hcell : t.cells[j0] = some x := of_decide_eq_true hp
        rw [hfx, List.getElem?_eq_getElem hlt, hcell]

/-- Concrete optional-int column with its single null at index 1 and a stored
zero at index 2, for the C5 witness. -/
def c5tbl : Table Int := { ptr := 4, attached := true, cells := [some 1, none, some 0] }

/-- Attached handle over `c5tbl`. -/
def c5lst : PrimitiveList Int :=
  { realm := { in_transaction := false }, opt := true, table := some c5tbl }

/-- Concrete optional-int column with no nulls, for the C5 witness. -/
def c5tblB : Table Int := { ptr := 5, attached := true, cells := [some 0, some 2] }

/-- Attached handle over `c5tblB`. -/
def c5lstB : PrimitiveList Int :=
  { realm := { in_transaction := false }, opt := true, table := some c5tblB }

/-- Witness for C5: the null search finds the unique null at index 1, the
null search on a null-free column reports `not_found`, and the search for the
present value 0 lands on the cell storing 0 (skipping the null at index 1). -/
theorem c5_find_null_semantics_witness :
    c5lst.find none = .ok 1
    ∧ c5lstB.find none = .ok not_found
    ∧ c5tbl.cells[2]? = some (some 0) :=
  ⟨(c5_find_null_semantics c5lst c5tbl rfl rfl).1 1 rfl (by decide),
   (c5_find_null_semantics c5lstB c5tblB rfl rfl).2.1 (by decide),
   (c5_find_null_semantics c5lst c5tbl rfl rfl).2.2 0 2 (by decide) (by decide)⟩

/-- Claim C8: every mutating operation on an attached handle outside a write
transaction fails with `InvalidTransaction` before performing any mutation
(the monadic error carries no new state, so the collection is unchanged);
shown for all seven `PrimitiveList` mutators and all eight `List` (link-mode)
mutators including `delete_all`. -/
theorem c8_no_transaction_fails {α : Type} [DecidableEq α]
    (l : PrimitiveList α) (ll : LinkList)
    (hval : l.is_valid = true) (htx : l.realm.in_transaction = false)
    (hvalL : ll.is_valid = true) (htxL : ll.realm.in_transaction = false) :
    (∀ v, l.add v = .error .invalidTransaction)
    ∧ (∀ i v, l.insert i v = .error .invalidTransaction)
    ∧ (∀ i v, l.set i v = .error .invalidTransaction)
    ∧ (∀ i, l.remove i = .error .invalidTransaction)
    ∧ (l.remove_all = .error .invalidTransaction)
    ∧ (∀ s d, l.move s d = .error .invalidTransaction)
    ∧ (∀ i j, l.swap i j = .error .invalidTransaction)
    ∧ (∀ tgt, ll.add tgt = .error .invalidTransaction)
    ∧ (∀ i tgt, ll.insert i tgt = .error .invalidTransaction)
    ∧ (∀ i tgt, ll.set i tgt = .error .invalidTransaction)
    ∧ (∀ i, ll.remove i = .error .invalidTransaction)
    ∧ (ll.remove_all = .error .invalidTransaction)
    ∧ (∀ s d, ll.move s d = .error .invalidTransaction)
    ∧ (∀ i j, ll.swap i j = .error .invalidTransaction)
    ∧ (ll.delete_all = .error .invalidTransaction) := by
  obtain ⟨re, op, tb⟩ := l
  obtain ⟨reL, lvb⟩ := ll
  simp only at htx htxL
  cases tb with
  | none => simp [PrimitiveList.is_valid] at hval
  | some t =>
  cases lvb with
  | none => simp [LinkList.is_valid] at hvalL
  | some lv =>
  simp only [PrimitiveList.is_valid] at hval
  simp only [LinkList.is_valid] at hvalL
  have hTx : PrimitiveList.checkedTxTable ⟨re, op, some t⟩ =
      (.error .invalidTransaction : Except Err (Table α)) := by
    simp [PrimitiveList.checkedTxTable, PrimitiveList.checkedTable, hval, htx,
      Bind.bind, Except.bind]
  have hTxL : LinkList.checkedTxLV ⟨reL, some lv⟩ = .error .invalidTransaction := by
    simp [LinkList.checkedTxLV, LinkList.checkedLV, hvalL, htxL, Bind.bind, Except.bind]
  refine ⟨?_, ?_, ?_, ?_, ?_, ?_, ?_, ?_, ?_, ?_, ?_, ?_, ?_, ?_, ?_⟩ <;>
    intros <;>
    simp [PrimitiveList.add, PrimitiveList.insert, PrimitiveList.set,
      PrimitiveList.remove, PrimitiveList.remove_all, PrimitiveList.move,
      PrimitiveList.swap, LinkList.add, LinkList.insert, LinkList.set,
      LinkList.remove, LinkList.remove_all, LinkList.move, LinkList.swap,
      LinkList.delete_all, hTx, hTxL, Bind.bind, Except.bind]

/-- Attached primitive handle outside a write transaction, for the C8
witness. -/
def c8lst : PrimitiveList Int :=
  { realm := { in_transaction := false }, opt := false,
    table := some { ptr := 6, attached := true, cells := [some 1] } }

/-- Attached link-mode handle outside a write transaction, for the C8
witness. -/
def c8ll : LinkList :=
  { realm := { in_transaction := false },
    linkView := some { ptr := 7, attached := true, links := [0] } }

/-- Witness for C8 at concrete attached handles outside a transaction. -/
theorem c8_no_transaction_fails_witness :
    c8lst.add (some 2) = .error .invalidTransaction
    ∧ c8ll.delete_all = .error .invalidTransaction :=
  ⟨(c8_no_transaction_fails c8lst c8ll rfl rfl rfl rfl).1 (some 2),
   (c8_no_transaction_fails c8lst c8ll rfl rfl rfl rfl).2.2.2.2.2.2.2.2.2.2.2.2.2.2⟩

/-- Claim C10: `get_unchecked` performs no attachment, thread-confinement or
bounds check for any handle and any index — it never produces this layer's
`OutOfBoundsIndex`, `Invalidated` or `InvalidTransaction` errors (an invalid
or out-of-range raw access is storage-engine undefined behaviour,
`engineFault`); on a valid handle it is exactly the direct storage read, so it
agrees with checked `get` in bounds, while out of bounds `get` raises
`OutOfBoundsIndex` and `get_unchecked` still performs the raw (faulting)
read. -/
theorem c10_get_unchecked_no_checks {α : Type} [DecidableEq α] [Inhabited α]
    (l : PrimitiveList α) (ll : LinkList) (i : Nat) :
    (∀ a b, l.get_unchecked i ≠ .error (.outOfBounds a b))
    ∧ l.get_unchecked i ≠ .error .invalidated
    ∧ l.get_unchecked i ≠ .error .invalidTransaction
    ∧ (∀ a b, ll.get_unchecked i ≠ .error (.outOfBounds a b))
    ∧ ll.get_unchecked i ≠ .error .invalidated
    ∧ ll.get_unchecked i ≠ .error .invalidTransaction
    ∧ (∀ t, l.table = some t → t.attached = true → i < t.cells.length →
        l.get_unchecked i = l.get i)
    ∧ (∀ t, l.table = some t → t.attached = true → t.cells.length ≤ i →
        l.get i = .error (.outOfBounds i t.cells.length)
        ∧ l.get_unchecked i = .error .engineFault) := by
  obtain ⟨re, op, tb⟩ := l
  obtain ⟨reL, lvb⟩ := ll
  refine ⟨?_, ?_, ?_, ?_, ?_, ?_, ?_, ?_⟩
  · intro a b
    cases tb with
    | none => simp [PrimitiveList.get_unchecked]
    | some t =>
        simp only [PrimitiveList.get_unchecked, Table.readCell]
        split <;> simp
  · cases tb with
    | none => simp [PrimitiveList.get_unchecked]
    | some t =>
        simp only [PrimitiveList.get_unchecked, Table.readCell]
        split <;> simp
  · cases tb with
    | none => simp [PrimitiveList.get_unchecked]
    | some t =>
        simp only [PrimitiveList.get_unchecked, Table.readCell]
        split <;> simp
  · intro a b
    cases lvb with
    | none => simp [LinkList.get_unchecked]
    | some lv =>
        simp only [LinkList.get_unchecked]
        split <;> simp
  · cases lvb with
    | none => simp [LinkList.get_unchecked]
    | some lv =>
        simp only [LinkList.get_unchecked]
        split <;> simp
  · cases lvb with
    | none => simp [LinkList.get_unchecked]
    | some lv =>
        simp only [LinkList.get_unchecked]
        split <;> simp
  · intro t hTab hAtt hi
    simp only at hTab
    subst hTab
    simp [PrimitiveList.get_unchecked, PrimitiveList.get, PrimitiveList.checkedTable,
      hAtt, verify_valid_row_get_spec, Bind.bind, Except.bind, if_pos hi]
  · intro t hTab hAtt hi
    simp only at hTab
    subst hTab
    constructor
    · simp [PrimitiveList.get, PrimitiveList.checkedTable, hAtt,
        verify_valid_row_get_spec, Bind.bind, Except.bind,
        if_neg (by omega : ¬ i < t.cells.length)]
    · simp [PrimitiveList.get_unchecked, Table.readCell, Or.inr hi]

/-- Attached one-element handle for the C10 witness. -/
def c10lst : PrimitiveList Int :=
  { realm := { in_transaction := false }, opt := false,
    table := some { ptr := 10, attached := true, cells := [some 5] } }

/-- Dummy link-mode handle for the C10 witness. -/
def c10ll : LinkList :=
  { realm := { in_transaction := false },
    linkView := some { ptr := 11, attached := true, links := [0] } }

/-- Witness for C10 at a concrete handle: in bounds the unchecked read agrees
with `get`; out of bounds `get` raises `OutOfBoundsIndex{5, 1}` while
`get_unchecked` performs the raw faulting read instead. -/
theorem c10_get_unchecked_no_checks_witness :
    c10lst.get_unchecked 0 = c10lst.get 0
    ∧ c10lst.get 5 = .error (.outOfBounds 5 1)
    ∧ c10lst.get_unchecked 5 = .error .engineFault :=
  ⟨(c10_get_unchecked_no_checks c10lst c10ll 0).2.2.2.2.2.2.1
      { ptr := 10, attached := true, cells := [some 5] } rfl rfl (by decide),
   ((c10_get_unchecked_no_checks c10lst c10ll 5).2.2.2.2.2.2.2
      { ptr := 10, attached := true, cells := [some 5] } rfl rfl (by decide)).1,
   ((c10_get_unchecked_no_checks c10lst c10ll 5).2.2.2.2.2.2.2
      { ptr := 10, attached := true, cells := [some 5] } rfl rfl (by decide)).2⟩

/-- Claim C9: collection handles compare equal — and hash equal — exactly when
they reference the identical underlying storage (the same interned link-view
object for link-mode `List`, the same backing table for `PrimitiveList`);
handles over distinct storage are unequal even with identical contents. -/
theorem c9_identity_equality {α : Type} (a b : PrimitiveList α) (c d : LinkList) :
    (PrimitiveList.eqOp a b = true ↔ a.ptrVal = b.ptrVal)
    ∧ (a.hashVal = b.hashVal ↔ a.ptrVal = b.ptrVal)
    ∧ (LinkList.eqOp c d = true ↔ c.lvPtrVal = d.lvPtrVal)
    ∧ (c.hashVal = d.hashVal ↔ c.lvPtrVal = d.lvPtrVal)
    ∧ (∀ t u, a.table = some t → b.table = some u → t.cells = u.cells →
        t.ptr ≠ u.ptr → PrimitiveList.eqOp a b = false)
    ∧ (∀ lv lw, c.linkView = some lv → d.linkView = some lw → lv.links = lw.links →
        lv.ptr ≠ lw.ptr → LinkList.eqOp c d = false) := by
  refine ⟨?_, ?_, ?_, ?_, ?_, ?_⟩
  · exact beq_iff_eq
  · exact Iff.rfl
  · exact beq_iff_eq
  · exact Iff.rfl
  · intro t u hta htb hcells hne
    have hpa : a.ptrVal = t.ptr := by simp [PrimitiveList.ptrVal, hta]
    have hpb : b.ptrVal = u.ptr := by simp [PrimitiveList.ptrVal, htb]
    simp only [PrimitiveList.eqOp, hpa, hpb]
    exact beq_eq_false_iff_ne.mpr hne
  · intro lv lw hlc hld hlinks hne
    have hpc : c.lvPtrVal = lv.ptr := by simp [LinkList.lvPtrVal, hlc]
    have hpd : d.lvPtrVal = lw.ptr := by simp [LinkList.lvPtrVal, hld]
    simp only [LinkList.eqOp, hpc, hpd]
    exact beq_eq_false_iff_ne.mpr hne

/-- Two primitive handles over distinct backing tables with identical
contents, and a third sharing the first handle's table, for the C9 witness. -/
def c9tblA : Table Int := { ptr := 21, attached := true, cells := [some 1, some 2] }

/-- A second table with the same contents as `c9tblA` but a different
identity. -/
def c9tblB : Table Int := { ptr := 22, attached := true, cells := [some 1, some 2] }

/-- Handle over `c9tblA`. -/
def c9lstA : PrimitiveList Int :=
  { realm := { in_transaction := false }, opt := false, table := some c9tblA }

/-- Handle over `c9tblB` (same contents, different storage). -/
def c9lstB : PrimitiveList Int :=
  { realm := { in_transaction := false }, opt := false, table := some c9tblB }

/-- A second handle sharing `c9tblA`'s storage. -/
def c9lstA2 : PrimitiveList Int :=
  { realm := { in_transaction := false }, opt := true, table := some c9tblA }

/-- Link-mode handles over two interned link views with equal contents. -/
def c9lvA : LinkView := { ptr := 23, attached := true, links := [0, 1] }

/-- A distinct link view with the same links as `c9lvA`. -/
def c9lvB : LinkView := { ptr := 24, attached := true, links := [0, 1] }

/-- Handle over `c9lvA`. -/
def c9llA : LinkList := { realm := { in_transaction := false }, linkView := some c9lvA }

/-- Handle over `c9lvB`. -/
def c9llB : LinkList := { realm := { in_transaction := false }, linkView := some c9lvB }

/-- Witness for C9: same-storage handles are equal, distinct-storage handles
with identical contents are not, for both handle kinds. -/
theorem c9_identity_equality_witness :
    PrimitiveList.eqOp c9lstA c9lstA2 = true
    ∧ PrimitiveList.eqOp c9lstA c9lstB = false
    ∧ LinkList.eqOp c9llA c9llB = false :=
  ⟨(c9_identity_equality c9lstA c9lstA2 c9llA c9llB).1.mpr rfl,
   (c9_identity_equality c9lstA c9lstB c9llA c9llB).2.2.2.2.1 c9tblA c9tblB rfl rfl rfl
      (by decide),
   (c9_identity_equality c9lstA c9lstB c9llA c9llB).2.2.2.2.2 c9lvA c9lvB rfl rfl rfl
      (by decide)⟩

/-- Concrete three-element scalar table for the C6 evaluation. -/
def c6tbl : Table Int := { ptr := 60, attached := true, cells := [some 10, some 20, some 30] }

/-- Attached scalar handle over `c6tbl`, in a write transaction. -/
def c6lst : PrimitiveList Int :=
  { realm := { in_transaction := true }, opt := false, table := some c6tbl }

/-- Concrete three-link view for the C6 evaluation. -/
def c6lv : LinkView := { ptr := 61, attached := true, links := [10, 20, 30] }

/-- Attached link-mode handle over `c6lv`, in a write transaction. -/
def c6ll : LinkList := { realm := { in_transaction := true }, linkView := some c6lv }

/-- Claim C6 evaluated at the failing input: on the scalar (primitive) handle
`[10, 20, 30]`, `move(0, 2)` succeeds but leaves the collection unchanged —
the `m_table->move` call is commented out in `PrimitiveList::move` — instead
of producing `[20, 30, 10]`; the link-mode `List::move` does relocate the
element as the claim describes. -/
theorem c6_move_noop_eval :
    c6lst.move 0 2 = .ok c6lst
    ∧ c6lst.move 0 2
        ≠ .ok { c6lst with table := some { c6tbl with cells := [some 20, some 30, some 10] } }
    ∧ c6ll.move 0 2
        = .ok { c6ll with linkView := some { c6lv with links := [20, 30, 10] } } := by
  refine ⟨by decide, by decide, by decide⟩

/-- Empty attached table for the C2 evaluation. -/
def c2tbl : Table Int := { ptr := 40, attached := true, cells := [] }

/-- Table-mode view engine over the empty table (what the `PrimitiveList`
aggregates construct). -/
def c2resTable : PrimitiveResults Int :=
  resultsOfTable { in_transaction := false } false c2tbl

/-- TableView-mode view engine over the empty table (the `Query`/`TableView`
aggregate path). -/
def c2resTV : PrimitiveResults Int :=
  { realm := { in_transaction := false }, opt := false, mode := .tableView,
    table := c2tbl, query := fun _ => true, tv := [], autoUpdate := true }

/-- Claim C2 evaluated on empty collections: `sum` is 0 and `average` is
`none` only where a template specialization exists — `int64` in both modes,
`float` in Table mode, `double` in TableView mode; `double` in Table mode,
`float` in TableView mode, and every optional numeric type instead throw
`"unsupported"`, contradicting the claim (and the header's own contract that
only timestamp/non-numeric columns are unsupported). -/
theorem c2_empty_aggregate_eval :
    PrimitiveResults.sum ⟨.i64, false⟩ c2resTable = .ok (some 0)
    ∧ PrimitiveResults.sum ⟨.i64, false⟩ c2resTV = .ok (some 0)
    ∧ PrimitiveResults.sum ⟨.f32, false⟩ c2resTable = .ok (some 0)
    ∧ PrimitiveResults.sum ⟨.f64, false⟩ c2resTV = .ok (some 0)
    ∧ PrimitiveResults.sum ⟨.f64, false⟩ c2resTable = .error .unsupported
    ∧ PrimitiveResults.sum ⟨.f32, false⟩ c2resTV = .error .unsupported
    ∧ PrimitiveResults.sum ⟨.i64, true⟩ c2resTable = .error .unsupported
    ∧ PrimitiveResults.sum ⟨.i64, true⟩ c2resTV = .error .unsupported
    ∧ PrimitiveResults.average ⟨.i64, false⟩ c2resTable = .ok none
    ∧ PrimitiveResults.average ⟨.i64, false⟩ c2resTV = .ok none
    ∧ PrimitiveResults.average ⟨.f64, false⟩ c2resTable = .error .unsupported
    ∧ PrimitiveResults.average ⟨.f32, false⟩ c2resTV = .error .unsupported
    ∧ PrimitiveResults.average ⟨.i64, true⟩ c2resTable = .error .unsupported := by
  refine ⟨?_, ?_, ?_, ?_, ?_, ?_, ?_, ?_, ?_, ?_, ?_, ?_, ?_⟩ <;> rfl

/-- Detached one-element table for the C3 counterexample and witness. -/
def c3detTbl : Table Int := { ptr := 50, attached := false, cells := [some 1] }

/-- Handle over the detached `c3detTbl`, in a write transaction. -/
def c3detLst : PrimitiveList Int :=
  { realm := { in_transaction := true }, opt := false, table := some c3detTbl }

/-- The C3 claim as written is false on the code: on a detached handle the
checked operations fail with `Invalidated`, but the aggregate `sum` performs
no re-validation at all — it builds a transient view engine over the detached
table and reaches the storage engine (modelled fault), never producing
`Invalidated`. -/
theorem c3_aggregate_no_revalidation_counterexample :
    c3detLst.is_valid = false
    ∧ c3detLst.size = .error .invalidated
    ∧ c3detLst.sumT ⟨.i64, false⟩ ≠ .error .invalidated
    ∧ c3detLst.sumT ⟨.i64, false⟩ = .error .engineFault := by
  refine ⟨by decide, by decide, by decide, by decide⟩

/-- Claim C3 (amended): every public checked collection-handle operation
(`size`, `get`, `find`, `add`, `insert`, `set`, `remove`, `remove_all`,
`move`, `swap`) first re-validates attachment and fails with `Invalidated`
whenever the handle is detached or default-constructed; the aggregates
`max`/`min`/`sum`/`average` do not re-validate — they delegate to a transient
view engine built over the raw storage and never produce `Invalidated`. -/
theorem c3_validation_amended (l : PrimitiveList Int) (hval : l.is_valid = false) :
    (l.size = .error .invalidated)
    ∧ (∀ i, l.get i = .error .invalidated)
    ∧ (∀ v, l.find v = .error .invalidated)
    ∧ (∀ v, l.add v = .error .invalidated)
    ∧ (∀ i v, l.insert i v = .error .invalidated)
    ∧ (∀ i v, l.set i v = .error .invalidated)
    ∧ (∀ i, l.remove i = .error .invalidated)
    ∧ (l.remove_all = .error .invalidated)
    ∧ (∀ s d, l.move s d = .error .invalidated)
    ∧ (∀ i j, l.swap i j = .error .invalidated)
    ∧ (∀ ty, l.sumT ty ≠ .error .invalidated)
    ∧ (∀ ty, l.averageT ty ≠ .error .invalidated)
    ∧ (∀ ty, l.maxT ty ≠ .error .invalidated)
    ∧ (∀ ty, l.minT ty ≠ .error .invalidated) := by
  obtain ⟨re, op, tb⟩ := l
  have hCT : PrimitiveList.checkedTable ⟨re, op, tb⟩ =
      (.error .invalidated : Except Err (Table Int)) := by
    cases tb with
    | none => rfl
    | some t =>
        simp only [PrimitiveList.is_valid] at hval
        simp [PrimitiveList.checkedTable, hval]
  have hChecked :
      (PrimitiveList.size ⟨re, op, tb⟩ = .error .invalidated)
      ∧ (∀ i, PrimitiveList.get ⟨re, op, tb⟩ i = .error .invalidated)
      ∧ (∀ v, PrimitiveList.find ⟨re, op, tb⟩ v = .error .invalidated)
      ∧ (∀ v, PrimitiveList.add ⟨re, op, tb⟩ v = .error .invalidated)
      ∧ (∀ i v, PrimitiveList.insert ⟨re, op, tb⟩ i v = .error .invalidated)
      ∧ (∀ i v, PrimitiveList.set ⟨re, op, tb⟩ i v = .error .invalidated)
      ∧ (∀ i, PrimitiveList.remove ⟨re, op, tb⟩ i = .error .invalidated)
      ∧ (PrimitiveList.remove_all ⟨re, op, tb⟩ = .error .invalidated)
      ∧ (∀ s d, PrimitiveList.move ⟨re, op, tb⟩ s d = .error .invalidated)
      ∧ (∀ i j, PrimitiveList.swap ⟨re, op, tb⟩ i j = .error .invalidated) := by
    refine ⟨?_, ?_, ?_, ?_, ?_, ?_, ?_, ?_, ?_, ?_⟩ <;>
      intros <;>
      simp [PrimitiveList.size, PrimitiveList.get, PrimitiveList.find,
        PrimitiveList.add, PrimitiveList.insert, PrimitiveList.set,
        PrimitiveList.remove, PrimitiveList.remove_all, PrimitiveList.move,
        PrimitiveList.swap, PrimitiveList.checkedTxTable, hCT, Bind.bind, Except.bind]
  obtain ⟨h1, h2, h3, h4, h5, h6, h7, h8, h9, h10⟩ := hChecked
  refine ⟨h1, h2, h3, h4, h5, h6, h7, h8, h9, h10, ?_, ?_, ?_, ?_⟩
  · intro ty
    cases tb with
    | none => simp [PrimitiveList.sumT]
    | some t =>
        simp only [PrimitiveList.is_valid] at hval
        simp only [PrimitiveList.sumT, PrimitiveResults.sum, resultsOfTable, sumDispatch,
          hval]
        cases hs : sumSpecialized ty .table <;> simp [hs]
  · intro ty
    cases tb with
    | none => simp [PrimitiveList.averageT]
    | some t =>
        simp only [PrimitiveList.is_valid] at hval
        simp only [PrimitiveList.averageT, PrimitiveResults.average, resultsOfTable,
          avgDispatch, hval]
        cases hs : avgSpecialized ty .table <;> simp [hs]
  · intro ty
    cases tb with
    | none => simp [PrimitiveList.maxT]
    | some t =>
        simp only [PrimitiveList.is_valid] at hval
        simp only [PrimitiveList.maxT, PrimitiveResults.maxAgg, resultsOfTable,
          minmaxDispatch, hval]
        cases hs : minmaxSpecialized ty .table <;> simp [hs]
  · intro ty
    cases tb with
    | none => simp [PrimitiveList.minT]
    | some t =>
        simp only [PrimitiveList.is_valid] at hval
        simp only [PrimitiveList.minT, PrimitiveResults.minAgg, resultsOfTable,
          minmaxDispatch, hval]
        cases hs : minmaxSpecialized ty .table <;> simp [hs]

/-- Witness for C3's amended theorem at a concrete detached handle. -/
theorem c3_validation_amended_witness :
    c3detLst.size = .error .invalidated
    ∧ (∀ ty, c3detLst.sumT ty ≠ .error .invalidated) :=
  ⟨(c3_validation_amended c3detLst rfl).1,
   (c3_validation_amended c3detLst rfl).2.2.2.2.2.2.2.2.2.2.1⟩

/-- Claim C7: a view engine in non-auto-updating (snapshot) mode keeps
reporting the count materialized at snapshot time after a backing row is
removed, and `get` at an in-range index whose row has been detached returns
the empty/absent value instead of failing. -/
theorem c7_snapshot_detached {α : Type} [DecidableEq α] [Inhabited α]
    (r : PrimitiveResults α) (k : Nat)
    (hm : r.mode = .query ∨ r.mode = .tableView)
    (hau : r.autoUpdate = false)
    (hAtt : r.table.attached = true)
    (hk : k < r.table.cells.length) :
    r.size = .ok r.tv.length
    ∧ (r.removeRow k).size = .ok r.tv.length
    ∧ (r.removeRow k).table.cells.length = r.table.cells.length - 1
    ∧ (∀ i, i < r.tv.length → (r.removeRow k).tv.getD i none = none →
        (r.removeRow k).get i = .ok (emptyValue r.opt)) := by
  obtain ⟨re, op, mo, tb, q, tv, au⟩ := r
  simp only at hm hau hAtt hk ⊢
  subst hau
  have hlen : (detachTv tv k).length = tv.length := by simp [detachTv]
  rcases hm with hq | hq <;> subst hq <;>
    refine ⟨?_, ?_, ?_, ?_⟩ <;>
    [skip; skip; skip; (intro i hi hdet); skip; skip; skip; (intro i hi hdet)] <;>
    [skip; skip; skip; (simp only [PrimitiveResults.removeRow] at hdet); skip; skip;
     skip; (simp only [PrimitiveResults.removeRow] at hdet)]
  · simp [PrimitiveResults.size, PrimitiveResults.validate_read,
      PrimitiveResults.sizeVal, PrimitiveResults.update_tableview, hAtt,
      Bind.bind, Except.bind]
  · simp [PrimitiveResults.size, PrimitiveResults.removeRow,
      PrimitiveResults.validate_read, PrimitiveResults.sizeVal,
      PrimitiveResults.update_tableview, hAtt, hlen, Bind.bind, Except.bind]
  · simp [PrimitiveResults.removeRow, List.length_eraseIdx, if_pos hk]
  · simp [PrimitiveResults.get, PrimitiveResults.removeRow,
      PrimitiveResults.validate_read, PrimitiveResults.getFromView,
      PrimitiveResults.update_tableview, hAtt, Bind.bind, Except.bind,
      isRowAttached, hdet, hlen, Nat.not_le.mpr hi]
    intro hcon
    rw [List.getD_eq_getElem?_getD] at hdet
    exact absurd hdet hcon
  · simp [PrimitiveResults.size, PrimitiveResults.validate_read,
      PrimitiveResults.sizeVal, PrimitiveResults.update_tableview, hAtt,
      Bind.bind, Except.bind]
  · simp [PrimitiveResults.size, PrimitiveResults.removeRow,
      PrimitiveResults.validate_read, PrimitiveResults.sizeVal,
      PrimitiveResults.update_tableview, hAtt, hlen, Bind.bind, Except.bind]
  · simp [PrimitiveResults.removeRow, List.length_eraseIdx, if_pos hk]
  · simp [PrimitiveResults.get, PrimitiveResults.removeRow,
      PrimitiveResults.validate_read, PrimitiveResults.getFromView,
      PrimitiveResults.update_tableview, hAtt, Bind.bind, Except.bind,
      isRowAttached, hdet, hlen, Nat.not_le.mpr hi]
    intro hcon
    rw [List.getD_eq_getElem?_getD] at hdet
    exact absurd hdet hcon

/-- A pinned (snapshot) TableView-mode engine over a three-row table, for the
C7 witness. -/
def c7res : PrimitiveResults Int :=
  { realm := { in_transaction := false }, opt := false, mode := .tableView,
    table := { ptr := 30, attached := true, cells := [some 10, some 20, some 30] },
    query := fun _ => true, tv := [some 0, some 1, some 2], autoUpdate := false }

/-- Witness for C7: after removing backing row 1, the snapshot still reports
size 3 and `get(1)` on the detached row returns the empty value. -/
theorem c7_snapshot_detached_witness :
    c7res.size = .ok 3
    ∧ (c7res.removeRow 1).size = .ok 3
    ∧ (c7res.removeRow 1).get 1 = .ok (some 0) :=
  ⟨(c7_snapshot_detached c7res 1 (Or.inr rfl) rfl rfl (by decide)).1,
   (c7_snapshot_detached c7res 1 (Or.inr rfl) rfl rfl (by decide)).2.1,
   (c7_snapshot_detached c7res 1 (Or.inr rfl) rfl rfl (by decide)).2.2.2 1 (by decide)
      (by decide)⟩
